import Mathlib

/-
  Verification development for the host-metrics sampling agent
  (Sistema-de-monitoreo-SO1).

  The C sources are shallowly embedded: each C function that a claim
  references is translated into a Lean definition over explicit inputs
  (file contents become lists of parsed lines, the process-global mutable
  state becomes explicit state passing).  Unsigned 64-bit arithmetic is
  modelled as Nat with explicit `% 2 ^ 64`; C `double` values are modelled
  as exact rationals `ℚ` (the claims under study concern branch structure
  and exact formulas, not floating-point rounding).
-/

namespace Monitoreo

/-- 2^64, the modulus of C `unsigned long long` arithmetic. -/
def U64 : Nat := 2 ^ 64

/-- Unsigned 64-bit subtraction `a - b` (two's-complement wraparound),
for `a b < U64`. -/
def u64sub (a b : Nat) : Nat := (a + (U64 - b)) % U64

/-- One parsed `cpu ...` line of /proc/stat: the eight cumulative tick
counters read by `sscanf("cpu %llu %llu %llu %llu %llu %llu %llu %llu")`
in `get_cpu_usage` (metrics.c). Each field is a 64-bit unsigned value. -/
structure CpuSample where
  user : Nat
  nice : Nat
  system : Nat
  idle : Nat
  iowait : Nat
  irq : Nat
  softirq : Nat
  steal : Nat
deriving Repr, DecidableEq

/-- `idle + iowait` as computed in C (u64 addition). -/
def cpuIdleTotal (s : CpuSample) : Nat := (s.idle + s.iowait) % U64

/-- `user + nice + system + irq + softirq + steal` as computed in C
(chain of u64 additions; iterated mod equals mod of the Nat sum). -/
def cpuNonIdle (s : CpuSample) : Nat :=
  (s.user + s.nice + s.system + s.irq + s.softirq + s.steal) % U64

/-- `total = idle_total + non_idle` (u64 addition). -/
def cpuTotal (s : CpuSample) : Nat := (cpuIdleTotal s + cpuNonIdle s) % U64

/-- `totald = total - prev_total` (u64 subtraction). -/
def cpuTotald (prev curr : CpuSample) : Nat := u64sub (cpuTotal curr) (cpuTotal prev)

/-- `idled = idle_total - prev_idle_total` (u64 subtraction). -/
def cpuIdled (prev curr : CpuSample) : Nat :=
  u64sub (cpuIdleTotal curr) (cpuIdleTotal prev)

/-- `get_cpu_usage` (metrics.c), after the /proc/stat line has been read and
parsed into `curr`.  The C statics `prev_user .. prev_steal` are the explicit
`prev` argument; the returned sample is the new value of those statics.
On the `totald == 0` failure path the function returns -1.0 *before*
updating the statics, so `prev` is returned unchanged there. -/
def get_cpu_usage (prev curr : CpuSample) : ℚ × CpuSample :=
  let totald := cpuTotald prev curr
  let idled := cpuIdled prev curr
  if totald = 0 then (-1, prev)
  else (((u64sub totald idled : ℚ) / (totald : ℚ)) * 100, curr)

/-- The initial value of the C statics `prev_user .. prev_steal`: all zero. -/
def initialCpuSample : CpuSample := ⟨0, 0, 0, 0, 0, 0, 0, 0⟩

/-! ## Memory sampler (/proc/meminfo) -/

/-- One line of /proc/meminfo as seen by the scans in `get_memory_total` and
`get_memory_free` (metrics.c): a line either matches
`sscanf("MemTotal: %llu kB")`, matches `sscanf("MemAvailable: %llu kB")`,
or matches neither. -/
inductive MemInfoLine where
  | memTotal (kb : Nat)
  | memAvailable (kb : Nat)
  | other
deriving Repr, DecidableEq

/-- The scan loop of `get_memory_total`: the local `total_mem_aux` starts at 0
and the loop breaks at the first `MemTotal` line; if none matches the local
stays 0. -/
def findMemTotal : List MemInfoLine → Nat
  | [] => 0
  | MemInfoLine.memTotal kb :: _ => kb
  | _ :: rest => findMemTotal rest

/-- The scan loop of `get_memory_free`: as `findMemTotal`, for `MemAvailable`. -/
def findMemAvailable : List MemInfoLine → Nat
  | [] => 0
  | MemInfoLine.memAvailable kb :: _ => kb
  | _ :: rest => findMemAvailable rest

/-- `get_memory_total` (metrics.c): -1.0 when the scanned value stayed at the
zero sentinel, otherwise kB converted to MB. -/
def get_memory_total (lines : List MemInfoLine) : ℚ :=
  let aux := findMemTotal lines
  if aux = 0 then -1 else (aux : ℚ) / 1024

/-- `get_memory_free` (metrics.c): -1.0 when the scanned value stayed at the
zero sentinel, otherwise kB converted to MB. -/
def get_memory_free (lines : List MemInfoLine) : ℚ :=
  let aux := findMemAvailable lines
  if aux = 0 then -1 else (aux : ℚ) / 1024

/-- `get_memory_usage` (metrics.c).  Note that the error sentinel of
`get_memory_free` participates in the arithmetic whenever `total_mem > 0`. -/
def get_memory_usage (lines : List MemInfoLine) : ℚ :=
  let total_mem := get_memory_total lines
  let free_mem := get_memory_free lines
  if 0 < total_mem then ((total_mem - free_mem) / total_mem) * 100 else -1

/-- `get_memory_used` (metrics.c): `total - free`, sentinels included. -/
def get_memory_used (lines : List MemInfoLine) : ℚ :=
  get_memory_total lines - get_memory_free lines

/-! ## Digit parsing helpers (strtoul / sscanf token models) -/

/-- ASCII decimal digit test. -/
def isDigitChar (c : Char) : Bool := 48 ≤ c.toNat && c.toNat ≤ 57

/-- Accumulate the value of a leading run of decimal digits, stopping at the
first non-digit (the behaviour of `strtoul(tok, NULL, 10)` on a token with
no leading whitespace or sign). -/
def digitsVal : List Char → Nat → Nat
  | [], acc => acc
  | c :: cs, acc =>
      if isDigitChar c then digitsVal cs (acc * 10 + (c.toNat - 48)) else acc

/-- `strtoul(tok, NULL, 10)` on a whitespace-free token: the value of the
leading digit run (0 when the token does not start with a digit). -/
def strtoul10 (s : String) : Nat := digitsVal s.data 0

/-! ## Disk sampler (/proc/diskstats) -/

/-- Does `needle` occur at the head of `hay`? (helper for the `strstr` model). -/
def listStartsWith : List Char → List Char → Bool
  | [], _ => true
  | _ :: _, [] => false
  | a :: as, b :: bs => a = b && listStartsWith as bs

/-- `strstr`: does `needle` occur as a contiguous substring of `hay`? -/
def containsSub (needle : List Char) : List Char → Bool
  | [] => needle.isEmpty
  | c :: rest => listStartsWith needle (c :: rest) || containsSub needle rest

/-- A /proc/diskstats line is modelled by its whitespace-token list; the C
code checks `strstr(buffer, device_name)` on the raw line, i.e. substring
containment in the space-joined token string. -/
def lineContains (device : String) (toks : List String) : Bool :=
  containsSub device.data (String.intercalate " " toks).data

/-- The `DiskMetrics` struct (metrics.h): four unsigned fields. -/
structure DiskMetrics where
  read_time_ms : Nat
  write_time_ms : Nat
  io_in_progress : Nat
  io_time_ms : Nat
deriving Repr, DecidableEq

/-- The token walk of `get_disk_metrics` on a matching line: 0-based field 4
goes to `read_time_ms`, field 8 to `write_time_ms`, field 9 to
`io_in_progress`, field 10 to `io_time_ms`; a field position beyond the end
of the line leaves the struct member at its previous value. -/
def diskAssign (old : DiskMetrics) (toks : List String) : DiskMetrics :=
  { read_time_ms := match toks.get? 4 with
      | some t => strtoul10 t
      | none => old.read_time_ms
    write_time_ms := match toks.get? 8 with
      | some t => strtoul10 t
      | none => old.write_time_ms
    io_in_progress := match toks.get? 9 with
      | some t => strtoul10 t
      | none => old.io_in_progress
    io_time_ms := match toks.get? 10 with
      | some t => strtoul10 t
      | none => old.io_time_ms }

/-- The configured device token (`const char* device_name = "sda"`). -/
def device_name : String := "sda"

/-- `get_disk_metrics` (metrics.c): scan the lines of /proc/diskstats for the
first one containing the device token; tokenize it and assign the fixed
positions, returning 0; return -1 (device not found) when the scan completes
without a match.  `old` is the caller's struct (`metrics_disk`), whose
previous contents survive where no assignment happens. -/
def get_disk_metrics (old : DiskMetrics) : List (List String) → Int × DiskMetrics
  | [] => (-1, old)
  | l :: rest =>
      if lineContains device_name l then (0, diskAssign old l)
      else get_disk_metrics old rest

/-! ## Network sampler (/proc/net/dev) -/

/-- A well-formed interface line of /proc/net/dev: the text before `:` and
the twelve leading counters the token walk of `get_network_metrics` visits
(receive bytes/packets/errs/drop/fifo/frame/compressed/multicast, then
transmit bytes/packets/errs/drop). -/
structure NetDevLine where
  name : String
  rx_bytes : Nat
  rx_packets : Nat
  rx_errs : Nat
  rx_drop : Nat
  rx_fifo : Nat
  rx_frame : Nat
  rx_compressed : Nat
  rx_multicast : Nat
  tx_bytes : Nat
  tx_packets : Nat
  tx_errs : Nat
  tx_drop : Nat
deriving Repr, DecidableEq

/-- The `NetworkMetrics` struct (metrics.h). -/
structure NetworkMetrics where
  interface : String
  receive_bytes : Nat
  transmit_bytes : Nat
  receive_errors : Nat
  transmit_errors : Nat
  receive_dropped : Nat
  transmit_dropped : Nat
deriving Repr, DecidableEq

/-- The per-line assignment of `get_network_metrics`: name from the `:` split,
receive bytes / errs (field 2) / drop (field 3), then after skipping five
fields transmit bytes (field 8) / errs (field 10) / drop (field 11).
Every field of the struct is overwritten. -/
def netLineMetrics (l : NetDevLine) : NetworkMetrics :=
  { interface := l.name
    receive_bytes := l.rx_bytes
    transmit_bytes := l.tx_bytes
    receive_errors := l.rx_errs
    transmit_errors := l.tx_errs
    receive_dropped := l.rx_drop
    transmit_dropped := l.tx_drop }

/-- `get_network_metrics` (metrics.c) on an opened /proc/net/dev whose lines
are `fileLines`: the first two lines are skipped unconditionally (their
content is never parsed, so headers are represented like any other line);
every later line overwrites the single struct; the function always returns 0
once the file was opened. -/
def get_network_metrics (old : NetworkMetrics) (fileLines : List NetDevLine) :
    Int × NetworkMetrics :=
  (0, (fileLines.drop 2).foldl (fun _ l => netLineMetrics l) old)

/-! ## Process count and context switches (/proc/stat) -/

/-- `get_running_processes` (metrics.c).  The input models /proc/stat:
`none` = the file could not be opened; `some none` = readable but the
`procs_running` line is absent (or its value did not parse, leaving the
local at 0); `some (some v)` = the line parsed to `v`.  A parsed value of 0
is indistinguishable from the not-found sentinel and yields -1. -/
def get_running_processes : Option (Option Int) → Int
  | none => -1
  | some none => -1
  | some (some v) => if v = 0 then -1 else v

/-- `get_context_switches` (metrics.c).  `none` = /proc/stat unopenable
(returns -1); `some none` = no `ctxt` line (local stays 0, returned as 0);
`some (some v)` = parsed u64 value `v < 2^64`, returned through a cast to
signed `long long` (two's-complement wrap for `v ≥ 2^63`). -/
def get_context_switches : Option (Option Nat) → Int
  | none => -1
  | some none => 0
  | some (some v) => if v < 2 ^ 63 then (v : Int) else (v : Int) - (U64 : Int)

/-! ## Gauge store and the update_* functions (expose_metrics.c) -/

/-- One named Prometheus gauge per metric registered in `init_metrics`
(expose_metrics.c); each slot holds the latest `prom_gauge_set` value. -/
structure GaugeStore where
  cpu_usage : ℚ
  memory_usage : ℚ
  total_memory : ℚ
  used_memory : ℚ
  available_memory : ℚ
  disk_read_time : ℚ
  disk_write_time : ℚ
  disk_io_in_progress : ℚ
  disk_io_time : ℚ
  network_received_bytes : ℚ
  network_transmitted_bytes : ℚ
  network_received_errors : ℚ
  network_transmitted_errors : ℚ
  network_received_dropped : ℚ
  network_transmitted_dropped : ℚ
  running_processes : ℚ
  context_switches : ℚ
deriving Repr, DecidableEq

/-- The kernel text interfaces as observed during one sampling cycle.
`stat_cpu = none` models `fopen`/`fgets`/`sscanf` failure in
`get_cpu_usage`; `netdev = none` models `fopen` failure in
`get_network_metrics`. -/
structure ProcEnv where
  stat_cpu : Option CpuSample
  meminfo : List MemInfoLine
  diskstats : List (List String)
  netdev : Option (List NetDevLine)
  procs_running : Option (Option Int)
  ctxt : Option (Option Nat)

/-- The process-global mutable state touched by the sampling loop: the CPU
statics, the `metrics_disk` and `metrics_network` structs, and the gauges. -/
structure SysState where
  cpu_prev : CpuSample
  metrics_disk : DiskMetrics
  metrics_network : NetworkMetrics
  gauges : GaugeStore
deriving Repr, DecidableEq

/-- `update_cpu_gauge` (expose_metrics.c): the gauge is set only when the
sampler's result is ≥ 0; on the read-failure path neither the statics nor
the gauge change. -/
def update_cpu_gauge (env : ProcEnv) (st : SysState) : SysState :=
  match env.stat_cpu with
  | none => st
  | some s =>
      let r := get_cpu_usage st.cpu_prev s
      let st' := { st with cpu_prev := r.2 }
      if 0 ≤ r.1 then
        { st' with gauges := { st'.gauges with cpu_usage := r.1 } }
      else st'

/-- `update_memory_gauge` (expose_metrics.c): all four gauges are set only
when all four sampler results are ≥ 0. -/
def update_memory_gauge (env : ProcEnv) (st : SysState) : SysState :=
  let usage := get_memory_usage env.meminfo
  let total := get_memory_total env.meminfo
  let used := get_memory_used env.meminfo
  let available := get_memory_free env.meminfo
  if 0 ≤ usage ∧ 0 ≤ total ∧ 0 ≤ used ∧ 0 ≤ available then
    { st with gauges :=
        { st.gauges with
          memory_usage := usage
          total_memory := total
          used_memory := used
          available_memory := available } }
  else st

/-- `update_disk_gauge` (expose_metrics.c): `get_disk_metrics` writes into
the global `metrics_disk` struct; the gauges are set from it on success. -/
def update_disk_gauge (env : ProcEnv) (st : SysState) : SysState :=
  let r := get_disk_metrics st.metrics_disk env.diskstats
  let st' := { st with metrics_disk := r.2 }
  if 0 ≤ r.1 then
    { st' with gauges :=
        { st'.gauges with
          disk_read_time := (r.2.read_time_ms : ℚ)
          disk_write_time := (r.2.write_time_ms : ℚ)
          disk_io_in_progress := (r.2.io_in_progress : ℚ)
          disk_io_time := (r.2.io_time_ms : ℚ) } }
  else st'

/-- `update_network_gauge` (expose_metrics.c): `get_network_metrics` writes
into the global `metrics_network` struct; the gauges are set from it on
success (which is whenever the file opened). -/
def update_network_gauge (env : ProcEnv) (st : SysState) : SysState :=
  match env.netdev with
  | none => st
  | some ls =>
      let r := get_network_metrics st.metrics_network ls
      let st' := { st with metrics_network := r.2 }
      if 0 ≤ r.1 then
        { st' with gauges :=
            { st'.gauges with
              network_received_bytes := (r.2.receive_bytes : ℚ)
              network_transmitted_bytes := (r.2.transmit_bytes : ℚ)
              network_received_errors := (r.2.receive_errors : ℚ)
              network_transmitted_errors := (r.2.transmit_errors : ℚ)
              network_received_dropped := (r.2.receive_dropped : ℚ)
              network_transmitted_dropped := (r.2.transmit_dropped : ℚ) } }
      else st'

/-- `update_proccess_gauge` (expose_metrics.c). -/
def update_proccess_gauge (env : ProcEnv) (st : SysState) : SysState :=
  let r := get_running_processes env.procs_running
  if 0 ≤ r then
    { st with gauges := { st.gauges with running_processes := (r : ℚ) } }
  else st

/-- `update_context_switches_gauge` (expose_metrics.c). -/
def update_context_switches_gauge (env : ProcEnv) (st : SysState) : SysState :=
  let r := get_context_switches env.ctxt
  if 0 ≤ r then
    { st with gauges := { st.gauges with context_switches := (r : ℚ) } }
  else st

/-- One iteration of the dispatch chain in `update_metrics` (main.c): an
entry that matches no known metric name is ignored. -/
def updateMetricsStep (env : ProcEnv) (name : String) (st : SysState) : SysState :=
  if name = "cpu_usage" then update_cpu_gauge env st
  else if name = "memory_usage" then update_memory_gauge env st
  else if name = "disk_usage" then update_disk_gauge env st
  else if name = "network_usage" then update_network_gauge env st
  else if name = "running_processes" then update_proccess_gauge env st
  else if name = "context_switches" then update_context_switches_gauge env st
  else st

/-- `update_metrics` (main.c): the loop over the enabled-metric list; the
return values of the updaters are discarded, so the loop always proceeds to
the next entry. -/
def update_metrics (env : ProcEnv) (names : List String) (st : SysState) : SysState :=
  names.foldl (fun s n => updateMetricsStep env n s) st

/-! ## Configuration loading (main.c, cJSON) -/

/-- The cJSON value tree produced by `cJSON_Parse`. -/
inductive CJson where
  | null
  | boolean (b : Bool)
  | num (v : Int)
  | str (s : String)
  | arr (items : List CJson)
  | obj (entries : List (String × CJson))
deriving Repr

/-- Key lookup in an object's entry list (first match). -/
def lookupEntry : List (String × CJson) → String → Option CJson
  | [], _ => none
  | (k, v) :: rest, key => if k = key then some v else lookupEntry rest key

/-- `cJSON_GetObjectItem`: NULL (none) unless the value is an object holding
the key. -/
def cJSON_GetObjectItem : CJson → String → Option CJson
  | CJson.obj entries, key => lookupEntry entries key
  | _, _ => none

/-- The `valuestring` member: non-NULL exactly for string nodes. -/
def cJSON_valuestring : CJson → Option String
  | CJson.str s => some s
  | _ => none

/-- The `Config` struct (globant.h). -/
structure Config where
  sampling_interval : Int
  metrics : List String
deriving Repr, DecidableEq

/-- `#define intervalo 10` (globant.h), the default sampling interval. -/
def intervalo : Int := 10

/-- The per-item `strdup(metric->valuestring)` loop of `load_config`:
`none` models the crash (undefined behaviour) of `strdup(NULL)` when an
array item is not a string. -/
def strdupAll : List CJson → Option (List String)
  | [] => some []
  | j :: rest =>
      match cJSON_valuestring j with
      | none => none
      | some s =>
          match strdupAll rest with
          | none => none
          | some ms => some (s :: ms)

/-- `load_config` (main.c).  The input is the `cJSON_Parse` result (`none`
covers an unreadable file or malformed JSON, both of which return the
default configuration).  The output is `none` exactly when the function
crashes: the metrics array contains a non-string item and
`strdup(metric->valuestring)` dereferences NULL. -/
def load_config (parsed : Option CJson) : Option Config :=
  match parsed with
  | none => some { sampling_interval := intervalo, metrics := [] }
  | some j =>
      let si := match cJSON_GetObjectItem j "sampling_interval" with
        | some (CJson.num v) => v
        | _ => intervalo
      match cJSON_GetObjectItem j "metrics" with
      | some (CJson.arr items) =>
          match strdupAll items with
          | some ms => some { sampling_interval := si, metrics := ms }
          | none => none
      | _ => some { sampling_interval := si, metrics := [] }

/-! ## Allocator-benchmark bridge (read_memory_metrics, metrics.c variant) -/

/-- The `MemoryMetrics` struct of the allocator bridge (metrics.h):
iteration count, elapsed time, allocation/free counters and fragmentation
ratios for one policy. -/
structure MemoryMetrics where
  iterations : Int
  time_taken : ℚ
  total_allocated : Nat
  freed_blocks : Int
  free_blocks : Int
  free_size : Nat
  avg_fragmentation : ℚ
  external_fragmentation : ℚ
deriving Repr, DecidableEq

/-- The three policy slots `First_Fit_Metrics`, `Best_Fit_Metrics`,
`Worst_Fit_Metrics` (file-scope globals, zero-initialised). -/
structure MemStores where
  first_fit : MemoryMetrics
  best_fit : MemoryMetrics
  worst_fit : MemoryMetrics
deriving Repr, DecidableEq

/-- All-zero `MemoryMetrics`, the static initial value of each slot. -/
def zeroMemoryMetrics : MemoryMetrics := ⟨0, 0, 0, 0, 0, 0, 0, 0⟩

/-- The zero-initialised global slots. -/
def zeroStores : MemStores := ⟨zeroMemoryMetrics, zeroMemoryMetrics, zeroMemoryMetrics⟩

/-- The conversion directives of
`sscanf(buffer, "%s %d %lf %zu %d %d %zu %lf %lf", ...)`. -/
inductive FieldKind where
  | fstr
  | fint
  | ffloat
  | fuint
deriving Repr, DecidableEq

/-- The nine directives of the allocator-record format string. -/
def scanFormat : List FieldKind :=
  [FieldKind.fstr, FieldKind.fint, FieldKind.ffloat, FieldKind.fuint,
   FieldKind.fint, FieldKind.fint, FieldKind.fuint, FieldKind.ffloat,
   FieldKind.ffloat]

/-- Does a token consist of an optional sign followed by a nonempty digit
run (`%d`; `%zu` via `strtoull` likewise accepts an optional sign)? -/
def isIntTok (s : String) : Bool :=
  match s.data with
  | [] => false
  | c :: cs =>
      if c = '-' ∨ c = '+' then !cs.isEmpty && cs.all isDigitChar
      else (c :: cs).all isDigitChar

/-- The unsigned body of a decimal-float token: digits, optionally followed
by a point and digits, with at least one digit overall (exponent forms are
not needed by the benchmark protocol and are omitted). -/
def floatBody (cs : List Char) : Bool :=
  let ip := cs.takeWhile isDigitChar
  match cs.dropWhile isDigitChar with
  | [] => !ip.isEmpty
  | '.' :: frac => (!ip.isEmpty || !frac.isEmpty) && frac.all isDigitChar
  | _ => false

/-- Does a token parse under `%lf`? -/
def isFloatTok (s : String) : Bool :=
  match s.data with
  | [] => false
  | c :: cs => if c = '-' ∨ c = '+' then floatBody cs else floatBody (c :: cs)

/-- Does one whitespace-separated token satisfy one conversion directive?
(`%s` consumes any nonempty token.)  `sscanf` is modelled at token
granularity: each directive consumes exactly one token and succeeds iff the
whole token parses under it. -/
def tokMatches : FieldKind → String → Bool
  | FieldKind.fstr, s => !s.isEmpty
  | FieldKind.fint, s => isIntTok s
  | FieldKind.ffloat, s => isFloatTok s
  | FieldKind.fuint, s => isIntTok s

/-- The number of directives successfully assigned before the first failure
or input exhaustion — the return value of `sscanf`. -/
def scanCountAux : List FieldKind → List String → Nat
  | [], _ => 0
  | _ :: _, [] => 0
  | k :: ks, t :: ts => if tokMatches k t then 1 + scanCountAux ks ts else 0

/-- `sscanf`'s return value for the nine-directive allocator format. -/
def scanCount (toks : List String) : Nat := scanCountAux scanFormat toks

/-- Signed decimal value of an int token. -/
def parseIntTok (s : String) : Int :=
  match s.data with
  | '-' :: cs => -(digitsVal cs 0 : Int)
  | '+' :: cs => (digitsVal cs 0 : Int)
  | cs => (digitsVal cs 0 : Int)

/-- Unsigned decimal value of a `%zu` token (sign dropped; the wraparound of
a negative input is irrelevant to the claims and not modelled). -/
def parseUIntTok (s : String) : Nat :=
  match s.data with
  | '-' :: cs => digitsVal cs 0
  | '+' :: cs => digitsVal cs 0
  | cs => digitsVal cs 0

/-- Value of an unsigned decimal-float body `digits[.digits]` as a rational. -/
def ratCore (cs : List Char) : ℚ :=
  let ip := cs.takeWhile isDigitChar
  match cs.dropWhile isDigitChar with
  | '.' :: frac =>
      let fd := frac.takeWhile isDigitChar
      (digitsVal ip 0 : ℚ) + (digitsVal fd 0 : ℚ) / ((10 : ℚ) ^ fd.length)
  | _ => (digitsVal ip 0 : ℚ)

/-- Signed value of a `%lf` token as a rational. -/
def parseRatTok (s : String) : ℚ :=
  match s.data with
  | '-' :: cs => -(ratCore cs)
  | '+' :: cs => ratCore cs
  | cs => ratCore cs

/-- The nine local variables of `read_memory_metrics`.  They are declared
without initialisers, so any of them that `sscanf` does not assign keeps an
indeterminate value — represented by the caller-supplied `junk` record. -/
structure ScanLocals where
  policy_name : String
  iterations : Int
  time_taken : ℚ
  total_allocated : Nat
  freed_blocks : Int
  free_blocks : Int
  free_size : Nat
  avg_fragmentation : ℚ
  external_fragmentation : ℚ
deriving Repr, DecidableEq

/-- The state of the nine locals after the `sscanf` call: the first
`scanCount toks` of them hold the parsed values, the rest keep their
indeterminate initial contents. -/
def scanAssign (junk : ScanLocals) (toks : List String) : ScanLocals :=
  let n := scanCount toks
  { policy_name := if 1 ≤ n then toks.getD 0 "" else junk.policy_name
    iterations := if 2 ≤ n then parseIntTok (toks.getD 1 "") else junk.iterations
    time_taken := if 3 ≤ n then parseRatTok (toks.getD 2 "") else junk.time_taken
    total_allocated := if 4 ≤ n then parseUIntTok (toks.getD 3 "") else junk.total_allocated
    freed_blocks := if 5 ≤ n then parseIntTok (toks.getD 4 "") else junk.freed_blocks
    free_blocks := if 6 ≤ n then parseIntTok (toks.getD 5 "") else junk.free_blocks
    free_size := if 7 ≤ n then parseUIntTok (toks.getD 6 "") else junk.free_size
    avg_fragmentation := if 8 ≤ n then parseRatTok (toks.getD 7 "") else junk.avg_fragmentation
    external_fragmentation := if 9 ≤ n then parseRatTok (toks.getD 8 "") else junk.external_fragmentation }

/-- The record written into a policy slot from the locals. -/
def localsRecord (loc : ScanLocals) : MemoryMetrics :=
  { iterations := loc.iterations
    time_taken := loc.time_taken
    total_allocated := loc.total_allocated
    freed_blocks := loc.freed_blocks
    free_blocks := loc.free_blocks
    free_size := loc.free_size
    avg_fragmentation := loc.avg_fragmentation
    external_fragmentation := loc.external_fragmentation }

/-- `read_memory_metrics` (metrics.c variant), after the FIFO payload has
been read into the buffer and split into whitespace tokens `toks`.
The boolean component records whether the malformed-record diagnostic was
printed: the C condition is `!sscanf(...) == 9`, which by operator
precedence is `(!sscanf(...)) == 9` — a value in {0,1} compared with 9 —
and the dispatch on `policy_name` runs unconditionally afterwards. -/
def read_memory_metrics (junk : ScanLocals) (st : MemStores) (toks : List String) :
    MemStores × Bool :=
  let loc := scanAssign junk toks
  let malformedReported : Bool := (if scanCount toks = 0 then (1 : Nat) else 0) == 9
  let st' :=
    if loc.policy_name = "First_Fit" then { st with first_fit := localsRecord loc }
    else if loc.policy_name = "Best_Fit" then { st with best_fit := localsRecord loc }
    else if loc.policy_name = "Worst_Fit" then { st with worst_fit := localsRecord loc }
    else st
  (st', malformedReported)

/-! ## Helper lemmas -/

lemma U64_pos : 0 < U64 := by norm_num [U64]

lemma u64sub_zero {a : Nat} (h : a < U64) : u64sub a 0 = a := by
  unfold u64sub
  rw [Nat.sub_zero, Nat.add_mod_right, Nat.mod_eq_of_lt h]

lemma u64sub_exact {a b : Nat} (hba : b ≤ a) (ha : a < U64) : u64sub a b = a - b := by
  unfold u64sub
  have hb : b ≤ U64 := le_of_lt (lt_of_le_of_lt hba ha)
  have h1 : a + (U64 - b) = U64 + (a - b) := by omega
  rw [h1, Nat.add_mod_left, Nat.mod_eq_of_lt (by omega)]

lemma cpuTotal_lt (s : CpuSample) : cpuTotal s < U64 :=
  Nat.mod_lt _ U64_pos

lemma cpuIdleTotal_lt (s : CpuSample) : cpuIdleTotal s < U64 :=
  Nat.mod_lt _ U64_pos

/-! ## C1 — first invocation of the CPU sampler -/

/-- C1 counterexample: on the very first call (statics all zero) with the
sample `cpu 1 0 0 0 0 0 0 0`, `get_cpu_usage` returns the numeric
percentage 100.0 (utilisation since boot), not the -1.0 error sentinel the
claim requires; so the first call can yield a percentage. -/
theorem cpu_first_call_counterexample :
    get_cpu_usage initialCpuSample ⟨1, 0, 0, 0, 0, 0, 0, 0⟩
      = (100, ⟨1, 0, 0, 0, 0, 0, 0, 0⟩)
    ∧ (get_cpu_usage initialCpuSample ⟨1, 0, 0, 0, 0, 0, 0, 0⟩).1 ≠ -1 := by
  have h : get_cpu_usage initialCpuSample ⟨1, 0, 0, 0, 0, 0, 0, 0⟩
      = (100, ⟨1, 0, 0, 0, 0, 0, 0, 0⟩) := by
    simp only [get_cpu_usage, cpuTotald, cpuIdled, cpuTotal, cpuIdleTotal,
      cpuNonIdle, u64sub, U64, initialCpuSample]
    norm_num
  refine ⟨h, ?_⟩
  rw [h]
  norm_num

/-- C1 (amended): the first invocation (statics all zero) returns -1.0 and
leaves the stored sample unchanged only when the sample's computed total
tick count is zero; otherwise it returns the utilisation since boot,
`(total - idle_total) / total * 100` in 64-bit arithmetic, and stores the
sample. -/
theorem cpu_first_call (s : CpuSample) :
    (cpuTotal s ≠ 0 →
      get_cpu_usage initialCpuSample s
        = ((u64sub (cpuTotal s) (cpuIdleTotal s) : ℚ) / (cpuTotal s : ℚ) * 100, s))
    ∧ (cpuTotal s = 0 → get_cpu_usage initialCpuSample s = (-1, initialCpuSample)) := by
  have h0 : cpuTotal initialCpuSample = 0 := by decide
  have h0i : cpuIdleTotal initialCpuSample = 0 := by decide
  have htd : cpuTotald initialCpuSample s = cpuTotal s := by
    unfold cpuTotald
    rw [h0, u64sub_zero (cpuTotal_lt s)]
  have hid : cpuIdled initialCpuSample s = cpuIdleTotal s := by
    unfold cpuIdled
    rw [h0i, u64sub_zero (cpuIdleTotal_lt s)]
  constructor
  · intro h
    simp only [get_cpu_usage, htd, hid, if_neg h]
  · intro h
    simp only [get_cpu_usage, htd, hid, if_pos h]

/-- C1 witness: a concrete first sample with nonzero total. -/
theorem cpu_first_call_witness :
    cpuTotal ⟨2, 0, 0, 1, 0, 0, 0, 0⟩ ≠ 0
    ∧ get_cpu_usage initialCpuSample ⟨2, 0, 0, 1, 0, 0, 0, 0⟩
        = (200 / 3, ⟨2, 0, 0, 1, 0, 0, 0, 0⟩) := by
  refine ⟨by decide, ?_⟩
  have h := (cpu_first_call ⟨2, 0, 0, 1, 0, 0, 0, 0⟩).1 (by decide)
  rw [h]
  rw [show u64sub (cpuTotal ⟨2, 0, 0, 1, 0, 0, 0, 0⟩)
        (cpuIdleTotal ⟨2, 0, 0, 1, 0, 0, 0, 0⟩) = 2 from by decide,
      show cpuTotal ⟨2, 0, 0, 1, 0, 0, 0, 0⟩ = 3 from by decide]
  norm_num [Prod.ext_iff]

/-! ## C2 — memory usage formula and error sentinel -/

/-- C2 counterexample: /proc/meminfo holding `MemTotal: 1024 kB` but no
`MemAvailable` line.  The claim requires the -1.0 sentinel (a scalar was
never found), but `get_memory_usage` feeds the -1.0 error value of
`get_memory_free` into the formula and returns 200. -/
theorem memory_usage_counterexample :
    get_memory_usage [MemInfoLine.memTotal 1024] = 200 ∧ (200 : ℚ) ≠ -1 := by
  constructor
  · simp only [get_memory_usage, get_memory_total, get_memory_free,
      findMemTotal, findMemAvailable]
    norm_num
  · norm_num

/-- C2 (amended): `get_memory_usage` returns -1.0 when `MemTotal` was never
found (or parsed as 0); when both scalars were found nonzero it returns
exactly `(total - available) / total * 100`; but when `MemTotal` is found
and `MemAvailable` is missing, the -1.0 sentinel of `get_memory_free`
enters the arithmetic and the result is `(total_kB + 1024) / total_kB * 100`
rather than an error. -/
theorem memory_usage_amended (lines : List MemInfoLine) :
    (findMemTotal lines = 0 → get_memory_usage lines = -1)
    ∧ (findMemTotal lines ≠ 0 → findMemAvailable lines ≠ 0 →
        get_memory_usage lines
          = ((findMemTotal lines : ℚ) - (findMemAvailable lines : ℚ))
              / (findMemTotal lines : ℚ) * 100)
    ∧ (findMemTotal lines ≠ 0 → findMemAvailable lines = 0 →
        get_memory_usage lines
          = ((findMemTotal lines : ℚ) + 1024) / (findMemTotal lines : ℚ) * 100) := by
  refine ⟨?_, ?_, ?_⟩
  · intro h
    simp only [get_memory_usage, get_memory_total, h, if_pos rfl]
    norm_num
  · intro ht ha
    have htq : (0 : ℚ) < (findMemTotal lines : ℚ) := by
      exact_mod_cast Nat.pos_of_ne_zero ht
    simp only [get_memory_usage, get_memory_total, get_memory_free,
      if_neg ht, if_neg ha]
    rw [if_pos (by positivity)]
    field_simp
  · intro ht ha
    have htq : (0 : ℚ) < (findMemTotal lines : ℚ) := by
      exact_mod_cast Nat.pos_of_ne_zero ht
    simp only [get_memory_usage, get_memory_total, get_memory_free,
      if_neg ht, if_pos ha]
    rw [if_pos (by positivity)]
    field_simp

/-- C2 witness: `MemTotal: 2048 kB`, `MemAvailable: 1024 kB` gives exactly
`(2048 - 1024) / 2048 * 100 = 50`. -/
theorem memory_usage_amended_witness :
    findMemTotal [MemInfoLine.memTotal 2048, MemInfoLine.memAvailable 1024] ≠ 0
    ∧ findMemAvailable [MemInfoLine.memTotal 2048, MemInfoLine.memAvailable 1024] ≠ 0
    ∧ get_memory_usage [MemInfoLine.memTotal 2048, MemInfoLine.memAvailable 1024] = 50 := by
  refine ⟨by decide, by decide, ?_⟩
  have h := (memory_usage_amended
    [MemInfoLine.memTotal 2048, MemInfoLine.memAvailable 1024]).2.1 (by decide) (by decide)
  rw [h]
  norm_num [findMemTotal, findMemAvailable]

/-! ## C10 — a zero procs_running reading is reported as an error -/

/-- C10: a parsed `procs_running` value of 0 and an absent `procs_running`
line both make `get_running_processes` return the -1 error sentinel — the
two cases are indistinguishable at the public interface — and in either
case `update_proccess_gauge` leaves the whole state (gauge included)
unchanged. -/
theorem running_processes_zero_conflated (env : ProcEnv) (st : SysState) :
    get_running_processes (some (some 0)) = -1
    ∧ get_running_processes (some none) = -1
    ∧ get_running_processes (some (some 0)) = get_running_processes (some none)
    ∧ (env.procs_running = some (some 0) → update_proccess_gauge env st = st)
    ∧ (env.procs_running = some none → update_proccess_gauge env st = st) := by
  refine ⟨by decide, by decide, by decide, ?_, ?_⟩
  · intro h
    simp only [update_proccess_gauge, h, get_running_processes]
    norm_num
  · intro h
    simp only [update_proccess_gauge, h, get_running_processes]
    norm_num

/-- All-zero gauge store (process start). -/
def gauge0 : GaugeStore := ⟨0, 0, 0, 0, 0, 0, 0, 0, 0, 0, 0, 0, 0, 0, 0, 0, 0⟩

/-- Initial process state: zeroed statics, structs and gauges. -/
def st0 : SysState := ⟨initialCpuSample, ⟨0, 0, 0, 0⟩, ⟨"", 0, 0, 0, 0, 0, 0⟩, gauge0⟩

/-- A cycle environment whose /proc/stat reports `procs_running 0`. -/
def envZeroProcs : ProcEnv := ⟨none, [], [], none, some (some 0), none⟩

/-- C10 witness: concrete environment with a zero reading. -/
theorem running_processes_zero_conflated_witness :
    envZeroProcs.procs_running = some (some 0)
    ∧ update_proccess_gauge envZeroProcs st0 = st0 :=
  ⟨rfl, (running_processes_zero_conflated envZeroProcs st0).2.2.2.1 rfl⟩

/-! ## C3 — malformed allocator-benchmark records -/

/-- C3 (code bug): on the malformed payload `"First_Fit x"` (second field is
not an int, so `sscanf` returns 1, not 9), the malformed-record check of
`read_memory_metrics` does not fire — `!sscanf(...) == 9` compares a value
in {0,1} against 9 — and the `First_Fit` slot is nevertheless overwritten
with the indeterminate contents of the unassigned locals.  The claim
(diagnose the malformed record, update no slot) is what the code plainly
intends and fails to do. -/
theorem read_memory_metrics_malformed_updates :
    read_memory_metrics ⟨"indet", 7, 2, 11, 3, 4, 13, 5, 9⟩ zeroStores ["First_Fit", "x"]
      = ({ zeroStores with first_fit := ⟨7, 2, 11, 3, 4, 13, 5, 9⟩ }, false)
    ∧ ({ zeroStores with first_fit := (⟨7, 2, 11, 3, 4, 13, 5, 9⟩ : MemoryMetrics) } : MemStores)
        ≠ zeroStores := by
  constructor
  · rfl
  · intro h
    have h7 : (7 : Int) = 0 := congrArg (fun m => m.first_fit.iterations) h
    exact absurd h7 (by decide)

/-! ## C7 — non-string entries in the configured metric list -/

/-- C7 (code bug): `load_config` on `{"metrics": [42]}` reaches
`strdup(metric->valuestring)` with `valuestring == NULL` and crashes
(modelled as `none`), contradicting the requirement that a malformed list
be tolerated by sampling nothing; an empty list is handled correctly. -/
theorem load_config_nonstring_metric_crash :
    load_config (some (CJson.obj [("metrics", CJson.arr [CJson.num 42])])) = none
    ∧ load_config (some (CJson.obj [("metrics", CJson.arr [])]))
        = some { sampling_interval := intervalo, metrics := [] } := by
  constructor
  · rfl
  · rfl

/-! ## C5 — network parser retains exactly the last interface line -/

/-- A fold whose step ignores the accumulator returns the image of the last
element. -/
lemma foldl_overwrite {α β : Type} (f : α → β) :
    ∀ (ls : List α) (b : β) (h : ls ≠ []),
      ls.foldl (fun _ l => f l) b = f (ls.getLast h) := by
  intro ls
  induction ls with
  | nil => intro b h; exact absurd rfl h
  | cons a t ih =>
      intro b h
      cases t with
      | nil => rfl
      | cons a2 t2 =>
          rw [List.foldl_cons]
          rw [ih (f a) (by simp)]
          simp [List.getLast_cons]

/-- C5: on a file of two header lines followed by at least one interface
line, `get_network_metrics` returns success and the struct holds exactly
the name and six counters of the last interface line — every earlier line
is overwritten. -/
theorem network_last_wins (init : NetworkMetrics) (h1 h2 : NetDevLine)
    (ls : List NetDevLine) (h : ls ≠ []) :
    get_network_metrics init (h1 :: h2 :: ls)
      = (0, netLineMetrics (ls.getLast h)) := by
  unfold get_network_metrics
  rw [show (h1 :: h2 :: ls).drop 2 = ls from rfl]
  rw [foldl_overwrite netLineMetrics ls init h]

/-- Zeroed network struct (file-scope global). -/
def nm0 : NetworkMetrics := ⟨"", 0, 0, 0, 0, 0, 0⟩

/-- Placeholder for a header line (its content is skipped, never parsed). -/
def netHdr : NetDevLine := ⟨"hdr", 0, 0, 0, 0, 0, 0, 0, 0, 0, 0, 0, 0⟩

/-- First fixture interface line. -/
def ifLineA : NetDevLine := ⟨"eth0", 1, 2, 3, 4, 5, 6, 7, 8, 9, 10, 11, 12⟩

/-- Second (last) fixture interface line. -/
def ifLineB : NetDevLine := ⟨"lo", 21, 22, 23, 24, 25, 26, 27, 28, 29, 30, 31, 32⟩

/-- C5 witness: two headers + two interface lines; only the second
interface line's values survive. -/
theorem network_last_wins_witness :
    ([ifLineA, ifLineB] : List NetDevLine) ≠ []
    ∧ get_network_metrics nm0 [netHdr, netHdr, ifLineA, ifLineB]
        = (0, ⟨"lo", 21, 29, 23, 31, 24, 32⟩) := by
  refine ⟨by simp, ?_⟩
  rw [network_last_wins nm0 netHdr netHdr [ifLineA, ifLineB] (by simp)]
  rfl

/-! ## C6 — disk field extraction at fixed positions -/

/-- Scanning lines that never contain the device token ends in the -1
(device not found) result with the struct untouched. -/
lemma disk_not_found (init : DiskMetrics) :
    ∀ lines : List (List String),
      (∀ x ∈ lines, lineContains device_name x = false) →
      get_disk_metrics init lines = (-1, init) := by
  intro lines
  induction lines with
  | nil => intro _; rfl
  | cons a t ih =>
      intro h
      have ha : lineContains device_name a = false := h a (by simp)
      simp only [get_disk_metrics, ha, Bool.false_eq_true, if_false]
      exact ih fun x hx => h x (by simp [hx])

/-- A prefix of non-matching lines is skipped by the scan. -/
lemma disk_skip (init : DiskMetrics) :
    ∀ (pre rest : List (List String)),
      (∀ x ∈ pre, lineContains device_name x = false) →
      get_disk_metrics init (pre ++ rest) = get_disk_metrics init rest := by
  intro pre
  induction pre with
  | nil => intro rest _; rfl
  | cons a t ih =>
      intro rest h
      have ha : lineContains device_name a = false := h a (by simp)
      simp only [List.cons_append, get_disk_metrics, ha, Bool.false_eq_true, if_false]
      exact ih rest fun x hx => h x (by simp [hx])

/-- In-range indexing with a default returns the corresponding `some`. -/
lemma get?_eq_some_getD {α : Type} (l : List α) (d : α) (i : Nat) (h : i < l.length) :
    l.get? i = some (l.getD i d) := by
  simp [List.getD_eq_getElem?_getD, List.get?_eq_getElem?, List.getElem?_eq_getElem h]

/-- C6: on the first scanned line containing the device token (with the
referenced positions present), `get_disk_metrics` assigns the tokens at
0-based positions 4, 8, 9, 10 to `read_time_ms`, `write_time_ms`,
`io_in_progress`, `io_time_ms` respectively and returns success (0); and on
input in which no line contains the token it returns -1 with the struct
unchanged. -/
theorem disk_metrics_spec (init : DiskMetrics) (pre post : List (List String))
    (l : List String)
    (hpre : ∀ x ∈ pre, lineContains device_name x = false)
    (hl : lineContains device_name l = true)
    (hlen : 11 ≤ l.length) :
    get_disk_metrics init (pre ++ l :: post)
      = (0, ⟨strtoul10 (l.getD 4 ""), strtoul10 (l.getD 8 ""),
             strtoul10 (l.getD 9 ""), strtoul10 (l.getD 10 "")⟩)
    ∧ get_disk_metrics init pre = (-1, init) := by
  constructor
  · rw [disk_skip init pre (l :: post) hpre]
    simp only [get_disk_metrics, hl, if_true]
    unfold diskAssign
    rw [get?_eq_some_getD l "" 4 (by omega), get?_eq_some_getD l "" 8 (by omega),
      get?_eq_some_getD l "" 9 (by omega), get?_eq_some_getD l "" 10 (by omega)]
  · exact disk_not_found init pre hpre

/-- Fixture /proc/diskstats line for device sda. -/
def sdaLine : List String :=
  ["8", "0", "sda", "100", "5", "200", "300", "7", "11", "13", "17"]

/-- C6 witness: a synthetic matching line yields the four integers at
positions 4, 8, 9, 10, and an empty scan yields -1. -/
theorem disk_metrics_spec_witness :
    lineContains device_name sdaLine = true
    ∧ 11 ≤ sdaLine.length
    ∧ get_disk_metrics ⟨0, 0, 0, 0⟩ [sdaLine] = (0, ⟨5, 11, 13, 17⟩)
    ∧ get_disk_metrics ⟨0, 0, 0, 0⟩ [] = (-1, ⟨0, 0, 0, 0⟩) := by
  have h := disk_metrics_spec ⟨0, 0, 0, 0⟩ [] [] sdaLine (by simp) (by decide) (by decide)
  refine ⟨by decide, by decide, ?_, h.2⟩
  have h1 := h.1
  rw [List.nil_append] at h1
  rw [h1]
  rfl

/-! ## C4 — utilization percentage range under monotone counters -/

/-- `idle + iowait` of a sample as an unbounded natural (no wraparound). -/
def nIdle (s : CpuSample) : Nat := s.idle + s.iowait

/-- `user + nice + system + irq + softirq + steal` as an unbounded natural. -/
def nNon (s : CpuSample) : Nat :=
  s.user + s.nice + s.system + s.irq + s.softirq + s.steal

/-- The true total tick count of a sample as an unbounded natural. -/
def nTot (s : CpuSample) : Nat := nIdle s + nNon s

/-- Sample used in the C4 counterexample (previous reading). -/
def cexPrev : CpuSample := ⟨1, 1, 1, 1, 1, 1, 1, 1⟩

/-- Sample used in the C4 counterexample (current reading): every counter
strictly exceeds its predecessor, yet `idle + iowait` is close enough to
2^64 that the u64 sum `total` wraps around. -/
def cexCurr : CpuSample := ⟨58, 2, 2, 2 ^ 63, 2 ^ 63 - 50, 2, 2, 2⟩

/-- C4 counterexample: all eight counters strictly increase and the
computed tick delta is strictly positive, yet the 64-bit wraparound in the
summation makes `get_cpu_usage` return 620, outside [0, 100]. -/
theorem cpu_usage_range_counterexample :
    (cexPrev.user < cexCurr.user ∧ cexPrev.nice < cexCurr.nice
      ∧ cexPrev.system < cexCurr.system ∧ cexPrev.idle < cexCurr.idle
      ∧ cexPrev.iowait < cexCurr.iowait ∧ cexPrev.irq < cexCurr.irq
      ∧ cexPrev.softirq < cexCurr.softirq ∧ cexPrev.steal < cexCurr.steal)
    ∧ 0 < cpuTotald cexPrev cexCurr
    ∧ (get_cpu_usage cexPrev cexCurr).1 = 620
    ∧ ¬(get_cpu_usage cexPrev cexCurr).1 ≤ 100 := by
  have h62 : u64sub (cpuTotald cexPrev cexCurr) (cpuIdled cexPrev cexCurr) = 62 := by
    decide
  have h10 : cpuTotald cexPrev cexCurr = 10 := by decide
  have h : (get_cpu_usage cexPrev cexCurr).1 = 620 := by
    simp only [get_cpu_usage]
    rw [h62, h10]
    norm_num
  refine ⟨by decide, by decide, h, ?_⟩
  rw [h]
  norm_num

/-- When the current sample's true total fits in 64 bits and every counter
is monotone, all the modular arithmetic in `get_cpu_usage` coincides with
exact natural arithmetic. -/
lemma get_cpu_usage_no_overflow (prev curr : CpuSample)
    (hle : prev.user ≤ curr.user ∧ prev.nice ≤ curr.nice
      ∧ prev.system ≤ curr.system ∧ prev.idle ≤ curr.idle
      ∧ prev.iowait ≤ curr.iowait ∧ prev.irq ≤ curr.irq
      ∧ prev.softirq ≤ curr.softirq ∧ prev.steal ≤ curr.steal)
    (hW : nTot curr < U64) :
    get_cpu_usage prev curr
      = if nTot curr - nTot prev = 0 then (-1, prev)
        else (((nNon curr - nNon prev : Nat) : ℚ)
                / ((nTot curr - nTot prev : Nat) : ℚ) * 100, curr) := by
  obtain ⟨h1, h2, h3, h4, h5, h6, h7, h8⟩ := hle
  have dIc : nIdle curr = curr.idle + curr.iowait := rfl
  have dIp : nIdle prev = prev.idle + prev.iowait := rfl
  have dNc : nNon curr
      = curr.user + curr.nice + curr.system + curr.irq + curr.softirq + curr.steal := rfl
  have dNp : nNon prev
      = prev.user + prev.nice + prev.system + prev.irq + prev.softirq + prev.steal := rfl
  have dTc : nTot curr = nIdle curr + nNon curr := rfl
  have dTp : nTot prev = nIdle prev + nNon prev := rfl
  have hIp : nIdle prev ≤ nIdle curr := by omega
  have hNp : nNon prev ≤ nNon curr := by omega
  have hTp : nTot prev ≤ nTot curr := by omega
  have eIc : cpuIdleTotal curr = nIdle curr :=
    Nat.mod_eq_of_lt (by omega)
  have eIp : cpuIdleTotal prev = nIdle prev :=
    Nat.mod_eq_of_lt (by omega)
  have eNc : cpuNonIdle curr = nNon curr :=
    Nat.mod_eq_of_lt (by omega)
  have eNp : cpuNonIdle prev = nNon prev :=
    Nat.mod_eq_of_lt (by omega)
  have eTc : cpuTotal curr = nTot curr := by
    unfold cpuTotal
    rw [eIc, eNc]
    exact Nat.mod_eq_of_lt (by omega)
  have eTp : cpuTotal prev = nTot prev := by
    unfold cpuTotal
    rw [eIp, eNp]
    exact Nat.mod_eq_of_lt (by omega)
  have eTd : cpuTotald prev curr = nTot curr - nTot prev := by
    unfold cpuTotald
    rw [eTc, eTp]
    exact u64sub_exact hTp hW
  have eId : cpuIdled prev curr = nIdle curr - nIdle prev := by
    unfold cpuIdled
    rw [eIc, eIp]
    exact u64sub_exact hIp (by omega)
  have eOut : u64sub (nTot curr - nTot prev) (nIdle curr - nIdle prev)
      = nNon curr - nNon prev := by
    rw [u64sub_exact (by omega) (by omega)]
    omega
  simp only [get_cpu_usage, eTd, eId, eOut]

/-- C4 (amended): for consecutive samples whose eight counters are each
strictly increasing — whence the tick delta is positive — and whose current
total tick sum does not overflow 64 bits, the returned utilization
percentage lies in [0, 100]. -/
theorem cpu_usage_in_range (prev curr : CpuSample)
    (hmono : prev.user < curr.user ∧ prev.nice < curr.nice
      ∧ prev.system < curr.system ∧ prev.idle < curr.idle
      ∧ prev.iowait < curr.iowait ∧ prev.irq < curr.irq
      ∧ prev.softirq < curr.softirq ∧ prev.steal < curr.steal)
    (hW : nTot curr < U64) :
    0 ≤ (get_cpu_usage prev curr).1 ∧ (get_cpu_usage prev curr).1 ≤ 100 := by
  obtain ⟨h1, h2, h3, h4, h5, h6, h7, h8⟩ := hmono
  rw [get_cpu_usage_no_overflow prev curr
    ⟨le_of_lt h1, le_of_lt h2, le_of_lt h3, le_of_lt h4,
     le_of_lt h5, le_of_lt h6, le_of_lt h7, le_of_lt h8⟩ hW]
  have hd : 0 < nTot curr - nTot prev := by
    unfold nTot nIdle nNon
    omega
  rw [if_neg (by omega)]
  have hnd : nNon curr - nNon prev ≤ nTot curr - nTot prev := by
    unfold nTot nIdle nNon
    omega
  have hdq : (0 : ℚ) < ((nTot curr - nTot prev : Nat) : ℚ) := by
    exact_mod_cast hd
  constructor
  · positivity
  · have hq : ((nNon curr - nNon prev : Nat) : ℚ)
        / ((nTot curr - nTot prev : Nat) : ℚ) ≤ 1 :=
      (div_le_one hdq).mpr (by exact_mod_cast hnd)
    calc ((nNon curr - nNon prev : Nat) : ℚ)
          / ((nTot curr - nTot prev : Nat) : ℚ) * 100
        ≤ 1 * 100 := by
          exact mul_le_mul_of_nonneg_right hq (by norm_num)
      _ = 100 := by norm_num

/-- Witness previous sample. -/
def wPrev : CpuSample := ⟨1, 1, 1, 1, 1, 1, 1, 1⟩

/-- Witness current sample. -/
def wCurr : CpuSample := ⟨2, 2, 2, 2, 2, 2, 2, 2⟩

/-- C4 witness: strictly increasing counters without overflow stay in
[0, 100]. -/
theorem cpu_usage_in_range_witness :
    (wPrev.user < wCurr.user ∧ wPrev.nice < wCurr.nice
      ∧ wPrev.system < wCurr.system ∧ wPrev.idle < wCurr.idle
      ∧ wPrev.iowait < wCurr.iowait ∧ wPrev.irq < wCurr.irq
      ∧ wPrev.softirq < wCurr.softirq ∧ wPrev.steal < wCurr.steal)
    ∧ nTot wCurr < U64
    ∧ (0 ≤ (get_cpu_usage wPrev wCurr).1 ∧ (get_cpu_usage wPrev wCurr).1 ≤ 100) :=
  ⟨by decide, by decide, cpu_usage_in_range wPrev wCurr (by decide) (by decide)⟩

/-! ## C8 — failure isolation within one sampling cycle -/

lemma update_metrics_nil (env : ProcEnv) (st : SysState) :
    update_metrics env [] st = st := rfl

lemma update_metrics_cons (env : ProcEnv) (a : String) (t : List String) (st : SysState) :
    update_metrics env (a :: t) st = update_metrics env t (updateMetricsStep env a st) := rfl

/-- A step-invariant property is an invariant of the whole cycle. -/
lemma update_metrics_mono {P : SysState → Prop} (env : ProcEnv)
    (hstab : ∀ n st, P st → P (updateMetricsStep env n st)) :
    ∀ (names : List String) (st : SysState), P st → P (update_metrics env names st) := by
  intro names
  induction names with
  | nil => intro st h; exact h
  | cons a t ih => intro st h; exact ih _ (hstab a st h)

/-- A step-invariant property established by every `name` step holds after
any cycle whose list contains `name`. -/
lemma update_metrics_establish {P : SysState → Prop} (env : ProcEnv) (name : String)
    (hstab : ∀ n st, P st → P (updateMetricsStep env n st))
    (hest : ∀ st, P (updateMetricsStep env name st)) :
    ∀ (names : List String) (st : SysState), name ∈ names →
      P (update_metrics env names st) := by
  intro names
  induction names with
  | nil => intro st h; cases h
  | cons a t ih =>
      intro st h
      rw [update_metrics_cons]
      rcases List.mem_cons.mp h with heq | hmem
      · subst heq
        exact update_metrics_mono env hstab t _ (hest st)
      · exact ih _ hmem

/-- When /proc/stat is unreadable the CPU updater is a no-op. -/
lemma update_cpu_gauge_none (env : ProcEnv) (st : SysState)
    (h : env.stat_cpu = none) : update_cpu_gauge env st = st := by
  simp only [update_cpu_gauge, h]

/-- Successful memory sampling sets the four memory gauges to the sampler
values (state-independently). -/
lemma update_memory_gauge_sets (env : ProcEnv) (st : SysState)
    (h : 0 ≤ get_memory_usage env.meminfo ∧ 0 ≤ get_memory_total env.meminfo
       ∧ 0 ≤ get_memory_used env.meminfo ∧ 0 ≤ get_memory_free env.meminfo) :
    (update_memory_gauge env st).gauges.memory_usage = get_memory_usage env.meminfo
    ∧ (update_memory_gauge env st).gauges.total_memory = get_memory_total env.meminfo
    ∧ (update_memory_gauge env st).gauges.used_memory = get_memory_used env.meminfo
    ∧ (update_memory_gauge env st).gauges.available_memory = get_memory_free env.meminfo := by
  simp only [update_memory_gauge]
  rw [if_pos h]
  exact ⟨rfl, rfl, rfl, rfl⟩

/-- Successful process-count sampling sets its gauge. -/
lemma update_proccess_gauge_sets (env : ProcEnv) (st : SysState)
    (h : 0 ≤ get_running_processes env.procs_running) :
    (update_proccess_gauge env st).gauges.running_processes
      = (get_running_processes env.procs_running : ℚ) := by
  simp only [update_proccess_gauge]
  rw [if_pos h]

/-- Successful context-switch sampling sets its gauge. -/
lemma update_context_switches_gauge_sets (env : ProcEnv) (st : SysState)
    (h : 0 ≤ get_context_switches env.ctxt) :
    (update_context_switches_gauge env st).gauges.context_switches
      = (get_context_switches env.ctxt : ℚ) := by
  simp only [update_context_switches_gauge]
  rw [if_pos h]

/-- Successful disk sampling (first matching line with all four positions
present) sets the four disk gauges to the parsed token values. -/
lemma update_disk_gauge_sets (env : ProcEnv) (st : SysState)
    (pre post : List (List String)) (l : List String)
    (hds : env.diskstats = pre ++ l :: post)
    (hpre : ∀ x ∈ pre, lineContains device_name x = false)
    (hl : lineContains device_name l = true)
    (hlen : 11 ≤ l.length) :
    (update_disk_gauge env st).gauges.disk_read_time = (strtoul10 (l.getD 4 "") : ℚ)
    ∧ (update_disk_gauge env st).gauges.disk_write_time = (strtoul10 (l.getD 8 "") : ℚ)
    ∧ (update_disk_gauge env st).gauges.disk_io_in_progress = (strtoul10 (l.getD 9 "") : ℚ)
    ∧ (update_disk_gauge env st).gauges.disk_io_time = (strtoul10 (l.getD 10 "") : ℚ) := by
  have hr := (disk_metrics_spec st.metrics_disk pre post l hpre hl hlen).1
  simp only [update_disk_gauge, hds, hr]
  norm_num

/-- On a readable /proc/net/dev the struct ends at the last post-header
line. -/
lemma get_network_metrics_last (old : NetworkMetrics) (ls : List NetDevLine)
    (hne : ls.drop 2 ≠ []) :
    get_network_metrics old ls = (0, netLineMetrics ((ls.drop 2).getLast hne)) := by
  unfold get_network_metrics
  rw [foldl_overwrite netLineMetrics (ls.drop 2) old hne]

/-- Successful network sampling sets the six network gauges from the last
post-header line (state-independently). -/
lemma update_network_gauge_sets (env : ProcEnv) (st : SysState)
    (ls : List NetDevLine) (hnet : env.netdev = some ls) (hne : ls.drop 2 ≠ []) :
    (update_network_gauge env st).gauges.network_received_bytes
        = ((netLineMetrics ((ls.drop 2).getLast hne)).receive_bytes : ℚ)
    ∧ (update_network_gauge env st).gauges.network_transmitted_bytes
        = ((netLineMetrics ((ls.drop 2).getLast hne)).transmit_bytes : ℚ)
    ∧ (update_network_gauge env st).gauges.network_received_errors
        = ((netLineMetrics ((ls.drop 2).getLast hne)).receive_errors : ℚ)
    ∧ (update_network_gauge env st).gauges.network_transmitted_errors
        = ((netLineMetrics ((ls.drop 2).getLast hne)).transmit_errors : ℚ)
    ∧ (update_network_gauge env st).gauges.network_received_dropped
        = ((netLineMetrics ((ls.drop 2).getLast hne)).receive_dropped : ℚ)
    ∧ (update_network_gauge env st).gauges.network_transmitted_dropped
        = ((netLineMetrics ((ls.drop 2).getLast hne)).transmit_dropped : ℚ) := by
  have hr := get_network_metrics_last st.metrics_network ls hne
  simp only [update_network_gauge, hnet, hr]
  norm_num

/-- C8: within one sampling cycle in which the CPU sampler fails (its
/proc/stat read fails), the CPU gauge slot keeps its previous value, while
every other enabled metric whose own sampler succeeds is still updated to
its freshly sampled value — the loop is not stopped by the failure. -/
theorem update_metrics_failure_isolation (env : ProcEnv) (names : List String)
    (st : SysState) (hcpu : env.stat_cpu = none) :
    (update_metrics env names st).gauges.cpu_usage = st.gauges.cpu_usage
    ∧ ("memory_usage" ∈ names →
        0 ≤ get_memory_usage env.meminfo → 0 ≤ get_memory_total env.meminfo →
        0 ≤ get_memory_used env.meminfo → 0 ≤ get_memory_free env.meminfo →
        (update_metrics env names st).gauges.memory_usage = get_memory_usage env.meminfo
        ∧ (update_metrics env names st).gauges.total_memory = get_memory_total env.meminfo
        ∧ (update_metrics env names st).gauges.used_memory = get_memory_used env.meminfo
        ∧ (update_metrics env names st).gauges.available_memory = get_memory_free env.meminfo)
    ∧ ("running_processes" ∈ names → 0 ≤ get_running_processes env.procs_running →
        (update_metrics env names st).gauges.running_processes
          = (get_running_processes env.procs_running : ℚ))
    ∧ ("context_switches" ∈ names → 0 ≤ get_context_switches env.ctxt →
        (update_metrics env names st).gauges.context_switches
          = (get_context_switches env.ctxt : ℚ))
    ∧ (∀ (pre post : List (List String)) (l : List String),
        "disk_usage" ∈ names →
        env.diskstats = pre ++ l :: post →
        (∀ x ∈ pre, lineContains device_name x = false) →
        lineContains device_name l = true →
        11 ≤ l.length →
        (update_metrics env names st).gauges.disk_read_time = (strtoul10 (l.getD 4 "") : ℚ)
        ∧ (update_metrics env names st).gauges.disk_write_time = (strtoul10 (l.getD 8 "") : ℚ)
        ∧ (update_metrics env names st).gauges.disk_io_in_progress = (strtoul10 (l.getD 9 "") : ℚ)
        ∧ (update_metrics env names st).gauges.disk_io_time = (strtoul10 (l.getD 10 "") : ℚ))
    ∧ (∀ (ls : List NetDevLine) (hne : ls.drop 2 ≠ []),
        "network_usage" ∈ names →
        env.netdev = some ls →
        (update_metrics env names st).gauges.network_received_bytes
            = ((netLineMetrics ((ls.drop 2).getLast hne)).receive_bytes : ℚ)
        ∧ (update_metrics env names st).gauges.network_transmitted_bytes
            = ((netLineMetrics ((ls.drop 2).getLast hne)).transmit_bytes : ℚ)
        ∧ (update_metrics env names st).gauges.network_received_errors
            = ((netLineMetrics ((ls.drop 2).getLast hne)).receive_errors : ℚ)
        ∧ (update_metrics env names st).gauges.network_transmitted_errors
            = ((netLineMetrics ((ls.drop 2).getLast hne)).transmit_errors : ℚ)
        ∧ (update_metrics env names st).gauges.network_received_dropped
            = ((netLineMetrics ((ls.drop 2).getLast hne)).receive_dropped : ℚ)
        ∧ (update_metrics env names st).gauges.network_transmitted_dropped
            = ((netLineMetrics ((ls.drop 2).getLast hne)).transmit_dropped : ℚ)) := by
  refine ⟨?_, ?_, ?_, ?_, ?_, ?_⟩
  · exact @update_metrics_mono
      (fun s2 => s2.gauges.cpu_usage = st.gauges.cpu_usage) env
      (fun n s2 h => by
        unfold updateMetricsStep
        split_ifs
        · rw [update_cpu_gauge_none env s2 hcpu]; exact h
        · simp only [update_memory_gauge]; split_ifs <;> exact h
        · simp only [update_disk_gauge]; split_ifs <;> exact h
        · rcases hnet : env.netdev with _ | ls
          · simpa only [update_network_gauge, hnet] using h
          · simp only [update_network_gauge, hnet]; split_ifs <;> exact h
        · simp only [update_proccess_gauge]; split_ifs <;> exact h
        · simp only [update_context_switches_gauge]; split_ifs <;> exact h
        · exact h)
      names st rfl
  · intro hmem h1 h2 h3 h4
    have hm : 0 ≤ get_memory_usage env.meminfo ∧ 0 ≤ get_memory_total env.meminfo
        ∧ 0 ≤ get_memory_used env.meminfo ∧ 0 ≤ get_memory_free env.meminfo :=
      ⟨h1, h2, h3, h4⟩
    exact @update_metrics_establish
      (fun s2 => s2.gauges.memory_usage = get_memory_usage env.meminfo
        ∧ s2.gauges.total_memory = get_memory_total env.meminfo
        ∧ s2.gauges.used_memory = get_memory_used env.meminfo
        ∧ s2.gauges.available_memory = get_memory_free env.meminfo)
      env "memory_usage"
      (fun n s2 h => by
        unfold updateMetricsStep
        split_ifs
        · rw [update_cpu_gauge_none env s2 hcpu]; exact h
        · exact update_memory_gauge_sets env s2 hm
        · simp only [update_disk_gauge]; split_ifs <;> exact h
        · rcases hnet : env.netdev with _ | ls
          · simpa only [update_network_gauge, hnet] using h
          · simp only [update_network_gauge, hnet]; split_ifs <;> exact h
        · simp only [update_proccess_gauge]; split_ifs <;> exact h
        · simp only [update_context_switches_gauge]; split_ifs <;> exact h
        · exact h)
      (fun s2 => by
        unfold updateMetricsStep
        rw [if_neg (by decide), if_pos rfl]
        exact update_memory_gauge_sets env s2 hm)
      names st hmem
  · intro hmem hp
    exact @update_metrics_establish
      (fun s2 => s2.gauges.running_processes = (get_running_processes env.procs_running : ℚ))
      env "running_processes"
      (fun n s2 h => by
        unfold updateMetricsStep
        split_ifs
        · rw [update_cpu_gauge_none env s2 hcpu]; exact h
        · simp only [update_memory_gauge]; split_ifs <;> exact h
        · simp only [update_disk_gauge]; split_ifs <;> exact h
        · rcases hnet : env.netdev with _ | ls
          · simpa only [update_network_gauge, hnet] using h
          · simp only [update_network_gauge, hnet]; split_ifs <;> exact h
        · exact update_proccess_gauge_sets env s2 hp
        · simp only [update_context_switches_gauge]; split_ifs <;> exact h
        · exact h)
      (fun s2 => by
        unfold updateMetricsStep
        rw [if_neg (by decide), if_neg (by decide), if_neg (by decide),
          if_neg (by decide), if_pos rfl]
        exact update_proccess_gauge_sets env s2 hp)
      names st hmem
  · intro hmem hc
    exact @update_metrics_establish
      (fun s2 => s2.gauges.context_switches = (get_context_switches env.ctxt : ℚ))
      env "context_switches"
      (fun n s2 h => by
        unfold updateMetricsStep
        split_ifs
        · rw [update_cpu_gauge_none env s2 hcpu]; exact h
        · simp only [update_memory_gauge]; split_ifs <;> exact h
        · simp only [update_disk_gauge]; split_ifs <;> exact h
        · rcases hnet : env.netdev with _ | ls
          · simpa only [update_network_gauge, hnet] using h
          · simp only [update_network_gauge, hnet]; split_ifs <;> exact h
        · simp only [update_proccess_gauge]; split_ifs <;> exact h
        · exact update_context_switches_gauge_sets env s2 hc
        · exact h)
      (fun s2 => by
        unfold updateMetricsStep
        rw [if_neg (by decide), if_neg (by decide), if_neg (by decide),
          if_neg (by decide), if_neg (by decide), if_pos rfl]
        exact update_context_switches_gauge_sets env s2 hc)
      names st hmem
  · intro pre post l hmem hds hpre hl hlen
    exact @update_metrics_establish
      (fun s2 => s2.gauges.disk_read_time = (strtoul10 (l.getD 4 "") : ℚ)
        ∧ s2.gauges.disk_write_time = (strtoul10 (l.getD 8 "") : ℚ)
        ∧ s2.gauges.disk_io_in_progress = (strtoul10 (l.getD 9 "") : ℚ)
        ∧ s2.gauges.disk_io_time = (strtoul10 (l.getD 10 "") : ℚ))
      env "disk_usage"
      (fun n s2 h => by
        unfold updateMetricsStep
        split_ifs
        · rw [update_cpu_gauge_none env s2 hcpu]; exact h
        · simp only [update_memory_gauge]; split_ifs <;> exact h
        · exact update_disk_gauge_sets env s2 pre post l hds hpre hl hlen
        · rcases hnet : env.netdev with _ | ls
          · simpa only [update_network_gauge, hnet] using h
          · simp only [update_network_gauge, hnet]; split_ifs <;> exact h
        · simp only [update_proccess_gauge]; split_ifs <;> exact h
        · simp only [update_context_switches_gauge]; split_ifs <;> exact h
        · exact h)
      (fun s2 => by
        unfold updateMetricsStep
        rw [if_neg (by decide), if_neg (by decide), if_pos rfl]
        exact update_disk_gauge_sets env s2 pre post l hds hpre hl hlen)
      names st hmem
  · intro ls hne hmem hnet
    exact @update_metrics_establish
      (fun s2 => s2.gauges.network_received_bytes
            = ((netLineMetrics ((ls.drop 2).getLast hne)).receive_bytes : ℚ)
        ∧ s2.gauges.network_transmitted_bytes
            = ((netLineMetrics ((ls.drop 2).getLast hne)).transmit_bytes : ℚ)
        ∧ s2.gauges.network_received_errors
            = ((netLineMetrics ((ls.drop 2).getLast hne)).receive_errors : ℚ)
        ∧ s2.gauges.network_transmitted_errors
            = ((netLineMetrics ((ls.drop 2).getLast hne)).transmit_errors : ℚ)
        ∧ s2.gauges.network_received_dropped
            = ((netLineMetrics ((ls.drop 2).getLast hne)).receive_dropped : ℚ)
        ∧ s2.gauges.network_transmitted_dropped
            = ((netLineMetrics ((ls.drop 2).getLast hne)).transmit_dropped : ℚ))
      env "network_usage"
      (fun n s2 h => by
        unfold updateMetricsStep
        split_ifs
        · rw [update_cpu_gauge_none env s2 hcpu]; exact h
        · simp only [update_memory_gauge]; split_ifs <;> exact h
        · simp only [update_disk_gauge]; split_ifs <;> exact h
        · exact update_network_gauge_sets env s2 ls hnet hne
        · simp only [update_proccess_gauge]; split_ifs <;> exact h
        · simp only [update_context_switches_gauge]; split_ifs <;> exact h
        · exact h)
      (fun s2 => by
        unfold updateMetricsStep
        rw [if_neg (by decide), if_neg (by decide), if_neg (by decide), if_pos rfl]
        exact update_network_gauge_sets env s2 ls hnet hne)
      names st hmem

/-- A concrete cycle in which the CPU read fails but every other source is
healthy. -/
def envCpuFail : ProcEnv :=
  ⟨none,
   [MemInfoLine.memTotal 2048, MemInfoLine.memAvailable 1024],
   [sdaLine],
   some [netHdr, netHdr, ifLineA, ifLineB],
   some (some 3),
   some (some 999)⟩

/-- The full enabled-metric list of the shipped configuration. -/
def allNames : List String :=
  ["cpu_usage", "memory_usage", "disk_usage", "network_usage",
   "running_processes", "context_switches"]

/-- C8 witness: with the CPU sampler failing, one cycle leaves the CPU gauge
at its previous value and updates every other enabled gauge. -/
theorem update_metrics_failure_isolation_witness :
    envCpuFail.stat_cpu = none
    ∧ (update_metrics envCpuFail allNames st0).gauges.cpu_usage = st0.gauges.cpu_usage
    ∧ (update_metrics envCpuFail allNames st0).gauges.memory_usage = 50
    ∧ (update_metrics envCpuFail allNames st0).gauges.running_processes = 3
    ∧ (update_metrics envCpuFail allNames st0).gauges.context_switches = 999
    ∧ (update_metrics envCpuFail allNames st0).gauges.disk_read_time = 5
    ∧ (update_metrics envCpuFail allNames st0).gauges.network_received_bytes = 21 := by
  have h := update_metrics_failure_isolation envCpuFail allNames st0 rfl
  have hmu : get_memory_usage envCpuFail.meminfo = 50 := by
    norm_num [envCpuFail, get_memory_usage, get_memory_total, get_memory_free,
      findMemTotal, findMemAvailable]
  have hmt : get_memory_total envCpuFail.meminfo = 2 := by
    norm_num [envCpuFail, get_memory_total, findMemTotal]
  have hma : get_memory_free envCpuFail.meminfo = 1 := by
    norm_num [envCpuFail, get_memory_free, findMemAvailable]
  have hmd : get_memory_used envCpuFail.meminfo = 1 := by
    rw [get_memory_used, hmt, hma]
    norm_num
  refine ⟨rfl, h.1, ?_, ?_, ?_, ?_, ?_⟩
  · have hm := h.2.1 (by decide) (by rw [hmu]; norm_num) (by rw [hmt]; norm_num)
      (by rw [hmd]; norm_num) (by rw [hma]; norm_num)
    rw [hm.1, hmu]
  · have hp := h.2.2.1 (by decide) (by decide)
    rw [hp]
    norm_num [envCpuFail, get_running_processes]
  · have hc := h.2.2.2.1 (by decide) (by decide)
    rw [hc]
    norm_num [envCpuFail, get_context_switches]
  · have hd := h.2.2.2.2.1 [] [] sdaLine (by decide) rfl (by simp) (by decide) (by decide)
    rw [hd.1, show strtoul10 (sdaLine.getD 4 "") = 5 from by decide]
    norm_num
  · have hne : (([netHdr, netHdr, ifLineA, ifLineB] : List NetDevLine).drop 2) ≠ [] := by
      decide
    have hn := h.2.2.2.2.2 [netHdr, netHdr, ifLineA, ifLineB] hne (by decide) rfl
    rw [hn.1, show (netLineMetrics ((([netHdr, netHdr, ifLineA, ifLineB] :
        List NetDevLine).drop 2).getLast hne)).receive_bytes = 21 from rfl]
    norm_num

end Monitoreo
